import Mathlib

/-!
# Verification of the payments result-normalization layer and the
# close-friends selection-list controller

Shallow embedding of `src/api/gramjs/methods/payments.ts` and
`src/components/story/privacy/CloseFriends.tsx` from `Jokerjs/telegram-tt`.

The remote transport (`invokeRequest`) is external: each normalizer is
embedded as a pure function from the (possibly absent) remote response to
its returned value together with the lists of side effects it performs
(notifications published via `sendApiUpdate`, update batches forwarded to
`handleGramJsUpdate`, cache registrations, diagnostic warnings), in the
order the code performs them.
-/

/-! ## Payments module: data model -/

/-- An opaque GramJs `Updates` payload, forwarded untouched by the code to
`handleGramJsUpdate`; its contents are never inspected here, so it is
modelled as an abstract token. -/
structure Updates where
  tag : Nat
deriving DecidableEq, Repr

/-- The tagged union returned by `payments.SendPaymentForm` and
`payments.SendStarsForm`: either `payments.PaymentVerificationNeeded`
(carrying a `url`) or a payment result carrying an `updates` field. -/
inductive PaymentSubmitResult where
  | paymentVerificationNeeded (url : String)
  | paymentResult (updates : Updates)
deriving DecidableEq, Repr

/-- A notification event published on the global channel via
`sendApiUpdate`; the code publishes objects of shape
`{'@type': 'updatePaymentVerificationNeeded', url}`. -/
structure ApiUpdate where
  atType : String
  url : String
deriving DecidableEq, Repr

/-- The observable outcome of one payment-submission normalizer call:
the returned JS value (`none` = `undefined`, `some b` = boolean `b`),
the notifications published via `sendApiUpdate`, the update batches
forwarded to `handleGramJsUpdate`, and the console warnings emitted. -/
structure SendFormOutcome where
  ret : Option Bool
  sentApiUpdates : List ApiUpdate
  handledUpdates : List Updates
  warnings : List String
deriving DecidableEq, Repr

/-! ## Payments module: the normalizers -/

/-- `sendPaymentForm` (payments.ts lines 100–123), from the point the
remote response is available: `if (!result) return false;` then on
`PaymentVerificationNeeded` it publishes one
`updatePaymentVerificationNeeded` notification with the response's url
and returns `undefined`; otherwise it forwards `result.updates` to
`handleGramJsUpdate` and returns `Boolean(result)` (true, since `result`
is a non-null object). -/
def sendPaymentForm (result : Option PaymentSubmitResult) : SendFormOutcome :=
  match result with
  | none => ⟨some false, [], [], []⟩
  | some (.paymentVerificationNeeded url) =>
      ⟨none, [⟨"updatePaymentVerificationNeeded", url⟩], [], []⟩
  | some (.paymentResult u) => ⟨some true, [], [u], []⟩

/-- `sendStarPaymentForm` (payments.ts lines 132–151), from the point the
remote response is available: `if (!result) return false;` then on
`PaymentVerificationNeeded` it warns on the console when the external
`DEBUG` config flag (modelled as the `debug` parameter) is set and
returns `undefined`; otherwise it forwards `result.updates` to
`handleGramJsUpdate` and returns `Boolean(result)` (true). -/
def sendStarPaymentForm (debug : Bool) (result : Option PaymentSubmitResult) :
    SendFormOutcome :=
  match result with
  | none => ⟨some false, [], [], []⟩
  | some (.paymentVerificationNeeded _) =>
      ⟨none, [], [],
        if debug then ["Unexpected PaymentVerificationNeeded in sendStarsForm"] else []⟩
  | some (.paymentResult u) => ⟨some true, [], [u], []⟩

/-- The raw `payments.GetPaymentForm` response: an optional `photo` web
document (identified here by its remote id) plus the rest of the form
payload, which the code translates one-to-one and which is modelled as an
opaque token. -/
structure PaymentFormRaw where
  photo : Option String
  formTag : Nat
deriving DecidableEq, Repr

/-- Modelled from the spec: `buildApiPaymentForm` (an apiBuilder outside
the sample) maps every field of the raw payload one-to-one into the
application shape; at this granularity it is the identity translation. -/
def buildApiPaymentForm (r : PaymentFormRaw) : PaymentFormRaw := r

/-- Modelled from the spec: `buildApiInvoiceFromForm` (an apiBuilder
outside the sample) is likewise a one-to-one field translation. -/
def buildApiInvoiceFromForm (r : PaymentFormRaw) : PaymentFormRaw := r

/-- The normalized return shape of `getPaymentForm`:
`{ form: buildApiPaymentForm(result), invoice: buildApiInvoiceFromForm(result) }`. -/
structure PaymentFormNormalized where
  form : PaymentFormRaw
  invoice : PaymentFormRaw
deriving DecidableEq, Repr

/-- The observable outcome of `getPaymentForm`: the returned value and the
web documents registered into the local cache via
`addWebDocumentToLocalDb`. -/
structure GetPaymentFormOutcome where
  ret : Option PaymentFormNormalized
  cachedWebDocs : List String
deriving DecidableEq, Repr

/-- `getPaymentForm` (payments.ts lines 153–171), from the point the
remote response is available: absent result returns `undefined`;
otherwise, if the form has a `photo` it is registered into the local
cache, and the normalized `{form, invoice}` pair is returned. -/
def getPaymentForm (result : Option PaymentFormRaw) : GetPaymentFormOutcome :=
  match result with
  | none => ⟨none, []⟩
  | some r =>
      ⟨some ⟨buildApiPaymentForm r, buildApiInvoiceFromForm r⟩,
        match r.photo with
        | some p => [p]
        | none => []⟩

/-- The raw `payments.ValidateRequestedInfo` response: an `id` string and
an optional shipping-options payload (opaque at this granularity). -/
structure RequestedInfoRaw where
  id : String
  shippingOptions : Option (List String)
deriving DecidableEq, Repr

/-- Modelled from the spec: `buildShippingOptions` (an apiBuilder outside
the sample) is a fixed sub-translator applied one-to-one to the raw
shipping options; at this granularity it is the identity. -/
def buildShippingOptions (o : Option (List String)) : Option (List String) := o

/-- The normalized return shape of `validateRequestedInfo`. -/
structure RequestedInfoNormalized where
  id : String
  shippingOptions : Option (List String)
deriving DecidableEq, Repr

/-- `validateRequestedInfo` (payments.ts lines 40–70), from the point the
remote response is available: absent result returns `undefined`; a
present result with a falsy (empty) `id` also returns `undefined`;
otherwise the normalized `{id, shippingOptions}` object is returned. -/
def validateRequestedInfo (result : Option RequestedInfoRaw) :
    Option RequestedInfoNormalized :=
  match result with
  | none => none
  | some r =>
      if r.id = "" then none
      else some ⟨r.id, buildShippingOptions r.shippingOptions⟩

/-! ## Claims about the payments module -/

/-- C1: on a `PaymentVerificationNeeded` response, `sendPaymentForm`
returns `undefined`, publishes exactly one notification of kind
`updatePaymentVerificationNeeded` carrying the response's url verbatim,
and performs no other update handling on that branch. -/
theorem sendPaymentForm_verification_needed (url : String) :
    sendPaymentForm (some (.paymentVerificationNeeded url)) =
      ⟨none, [⟨"updatePaymentVerificationNeeded", url⟩], [], []⟩ := rfl

/-- C2 counterexample: on an absent result, `sendPaymentForm` returns the
boolean `false`, not `undefined`, refuting the claim that every
normalizer returns `undefined` on `Absent`. -/
theorem sendPaymentForm_absent_not_undefined :
    (sendPaymentForm none).ret = some false ∧ (sendPaymentForm none).ret ≠ none := by
  constructor
  · rfl
  · simp [sendPaymentForm]

/-- C2 amended: on an absent result, the two payment-submission
normalizers `sendPaymentForm` and `sendStarPaymentForm` return the
boolean `false`, while `getPaymentForm` and `validateRequestedInfo`
return `undefined`; in every case the absent branch publishes no
notification, forwards no updates, registers nothing into the local
cache, and emits no warning. -/
theorem absent_branch_effects (debug : Bool) :
    sendPaymentForm none = ⟨some false, [], [], []⟩ ∧
    sendStarPaymentForm debug none = ⟨some false, [], [], []⟩ ∧
    getPaymentForm none = ⟨none, []⟩ ∧
    validateRequestedInfo none = none := by
  refine ⟨rfl, ?_, rfl, rfl⟩
  simp [sendStarPaymentForm]

/-- C3 counterexample: on a `PaymentVerificationNeeded` response,
`sendStarPaymentForm` does not fall through to normal success handling:
it returns `undefined` (not a completion boolean) and forwards no
updates to `handleGramJsUpdate`. -/
theorem sendStarPaymentForm_verification_short_circuits :
    (sendStarPaymentForm true
        (some (.paymentVerificationNeeded "https://example.com"))).ret = none ∧
    (sendStarPaymentForm true
        (some (.paymentVerificationNeeded "https://example.com"))).handledUpdates = [] ∧
    (sendStarPaymentForm true
        (some (.paymentVerificationNeeded "https://example.com"))).ret ≠ some true := by
  refine ⟨rfl, rfl, ?_⟩
  simp [sendStarPaymentForm]

/-- C3 amended: on a `PaymentVerificationNeeded` response,
`sendStarPaymentForm` records the condition diagnostically (a console
warning, emitted only when the `DEBUG` flag is set) and short-circuits,
returning `undefined` without processing updates, without publishing any
notification, and without propagating an error. -/
theorem sendStarPaymentForm_verification_needed (debug : Bool) (url : String) :
    sendStarPaymentForm debug (some (.paymentVerificationNeeded url)) =
      ⟨none, [], [],
        if debug then ["Unexpected PaymentVerificationNeeded in sendStarsForm"] else []⟩ :=
  rfl

/-- C7: on a successful, non-deferred payment-submission response, both
`sendPaymentForm` and `sendStarPaymentForm` return the completion
boolean `true`, publish no notification event, and forward the
response's updates to `handleGramJsUpdate`. -/
theorem submit_success_returns_boolean (debug : Bool) (u : Updates) :
    sendPaymentForm (some (.paymentResult u)) = ⟨some true, [], [u], []⟩ ∧
    sendStarPaymentForm debug (some (.paymentResult u)) = ⟨some true, [], [u], []⟩ :=
  ⟨rfl, rfl⟩

/-- C10: `validateRequestedInfo` returns `undefined` both when the remote
response is absent and when a present response carries an empty `id`;
only a non-empty `id` yields the normalized `{id, shippingOptions}`
object. -/
theorem validateRequestedInfo_id_gate :
    validateRequestedInfo none = none ∧
    (∀ r : RequestedInfoRaw, r.id = "" → validateRequestedInfo (some r) = none) ∧
    (∀ r : RequestedInfoRaw, r.id ≠ "" →
      validateRequestedInfo (some r) =
        some ⟨r.id, buildShippingOptions r.shippingOptions⟩) := by
  refine ⟨rfl, ?_, ?_⟩
  · intro r h
    simp [validateRequestedInfo, h]
  · intro r h
    simp [validateRequestedInfo, h]

/-- Witness for C10: evaluating `validateRequestedInfo` at concrete
responses with an empty and a non-empty `id`. -/
theorem validateRequestedInfo_id_gate_witness :
    validateRequestedInfo (some ⟨"", some ["opt"]⟩) = none ∧
    validateRequestedInfo (some ⟨"form1", some ["opt"]⟩) =
      some ⟨"form1", some ["opt"]⟩ :=
  ⟨(validateRequestedInfo_id_gate).2.1 ⟨"", some ["opt"]⟩ rfl,
   (validateRequestedInfo_id_gate).2.2 ⟨"form1", some ["opt"]⟩ (by decide)⟩

/-! ## Close-friends selection-list controller: data model -/

/-- The slice of an `ApiUser` record the component reads: the display
name (used by the search filter) and the `isCloseFriend` flag. -/
structure ApiUser where
  name : String
  isCloseFriend : Bool
deriving DecidableEq, Repr

/-- Checks whether `needle` occurs as a contiguous substring of `hay`. -/
def containsSub (needle : List Char) : List Char → Bool
  | [] => needle.isPrefixOf []
  | c :: rest => needle.isPrefixOf (c :: rest) || containsSub needle rest

/-- Modelled from the spec: `filterUsersByName` (a global helper outside
the sample) intersects the search text against names: an empty text keeps
every ID, otherwise an ID is kept when its user exists and the text
occurs in the user's name. -/
def filterUsersByName (userIds : List String) (usersById : String → Option ApiUser)
    (query : String) : List String :=
  if query = "" then userIds
  else userIds.filter (fun id =>
    match usersById id with
    | some u => containsSub query.toList u.name.toList
    | none => false)

/-- Modelled from the spec: `unique` (from util/iteratees, outside the
sample) de-duplicates a list preserving the first occurrence of each
element. -/
def unique : List String → List String
  | [] => []
  | x :: xs => x :: unique (xs.filter (fun y => y ≠ x))
termination_by l => l.length
decreasing_by
  simpa using Nat.lt_succ_of_le (List.length_filter_le _ xs)

/-- `closeFriendIds` (CloseFriends.tsx lines 39–41): the contact-list IDs
whose user record is flagged `isCloseFriend`; an absent contact list is
treated as empty (`contactListIds || []`). -/
def closeFriendIds (usersById : String → Option ApiUser)
    (contactListIds : Option (List String)) : List String :=
  (contactListIds.getD []).filter (fun userId =>
    match usersById userId with
    | some u => u.isCloseFriend
    | none => false)

/-- `displayedIds` (CloseFriends.tsx lines 43–46): the contact-list IDs
minus the acting user, appended after the close-friend IDs, run through
the name filter and de-duplicated. -/
def displayedIds (usersById : String → Option ApiUser)
    (contactListIds : Option (List String)) (currentUserId : String)
    (searchQuery : String) : List String :=
  let contactIds := (contactListIds.getD []).filter (fun id => id ≠ currentUserId)
  unique (filterUsersByName (closeFriendIds usersById contactListIds ++ contactIds)
    usersById searchQuery)

/-! ## Helper lemmas about `unique` -/

theorem mem_unique (a : String) : ∀ l : List String, a ∈ unique l ↔ a ∈ l := by
  intro l
  induction l using unique.induct with
  | case1 => simp [unique]
  | case2 x xs ih =>
    rw [unique]
    by_cases hax : a = x
    · subst hax; simp
    · simp only [List.mem_cons, hax, false_or]
      rw [ih]
      simp [hax]

theorem unique_nodup : ∀ l : List String, (unique l).Nodup := by
  intro l
  induction l using unique.induct with
  | case1 => simp [unique]
  | case2 x xs ih =>
    rw [unique]
    refine List.nodup_cons.mpr ⟨?_, ih⟩
    rw [mem_unique]
    simp

theorem unique_append (xs : List String) : ∀ ys : List String,
    unique (xs ++ ys) =
      unique xs ++ unique (ys.filter (fun y => !(xs.contains y))) := by
  induction xs using unique.induct with
  | case1 =>
    intro ys
    simp [unique]
  | case2 x xs ih =>
    intro ys
    rw [List.cons_append, unique, unique, List.filter_append,
      ih (ys.filter (fun y => y ≠ x)), List.cons_append, List.filter_filter]
    congr 2
    refine congrArg unique ?_
    apply List.filter_congr
    intro y _
    by_cases hyx : y = x
    · simp [hyx]
    · simp [hyx, List.mem_filter]

/-- The predicate `filterUsersByName` applies elementwise: an ID passes
when the query is empty, or when its user exists and the query occurs in
the user's name. -/
def matchesQuery (usersById : String → Option ApiUser) (query : String)
    (id : String) : Bool :=
  query = "" ||
    (match usersById id with
     | some u => containsSub query.toList u.name.toList
     | none => false)

theorem filterUsersByName_eq_filter (l : List String)
    (u : String → Option ApiUser) (q : String) :
    filterUsersByName l u q = l.filter (matchesQuery u q) := by
  by_cases h : q = ""
  · subst h
    simp only [filterUsersByName, if_pos rfl]
    symm
    refine List.filter_eq_self.mpr ?_
    intro a _
    simp [matchesQuery]
  · simp only [filterUsersByName, if_neg h]
    refine List.filter_congr ?_
    intro a _
    simp [matchesQuery, h]

/-- Membership in `displayedIds`: an ID is displayed exactly when it is a
close friend or a non-self contact, and it passes the name filter. -/
theorem mem_displayedIds (u : String → Option ApiUser) (c : Option (List String))
    (self q id : String) :
    id ∈ displayedIds u c self q ↔
      ((id ∈ closeFriendIds u c ∨ (id ∈ c.getD [] ∧ id ≠ self)) ∧
        matchesQuery u q id = true) := by
  simp [displayedIds, mem_unique, filterUsersByName_eq_filter, List.mem_filter,
    List.mem_append]
  tauto

/-! ## Close-friends controller: state machine -/

/-- The controller state the claims concern: the working selection
(`newSelectedContactIds`), the submit-button flag (`isSubmitShown`), and
the previous value of the `isActive` prop as remembered across renders
(falsy before the first render). -/
structure ControllerState where
  newSelectedContactIds : List String
  isSubmitShown : Bool
  prevIsActive : Bool
deriving DecidableEq, Repr

/-- The activation effect (CloseFriends.tsx lines 48–53) as run on a
render. `useEffectWithPrevDeps` (a hook outside the sample, modelled from
the spec as a framework hook comparing previous vs. current props)
supplies the previous `isActive`; the effect body is the code's
`if (!prevIsActive && isActive) { setIsSubmitShown(false);
setNewSelectedContactIds(closeFriendIds); }`. -/
def renderStep (s : ControllerState) (isActive : Bool)
    (closeFriends : List String) : ControllerState :=
  if !s.prevIsActive && isActive then ⟨closeFriends, false, isActive⟩
  else { s with prevIsActive := isActive }

/-- An invocation of one of the component's external collaborators. -/
inductive ExternalCall where
  | saveCloseFriends (userIds : List String)
  | onClose
deriving DecidableEq, Repr

/-- `handleSelectedContactIdsChange` (CloseFriends.tsx lines 55–58):
replaces the working selection and unconditionally shows the submit
button. -/
def handleSelectedContactIdsChange (s : ControllerState)
    (value : List String) : ControllerState :=
  { s with newSelectedContactIds := value, isSubmitShown := true }

/-- `handleSubmit` (CloseFriends.tsx lines 60–63): calls
`saveCloseFriends({ userIds: newSelectedContactIds })` and then
`onClose()`, in that order. -/
def handleSubmit (s : ControllerState) : List ExternalCall :=
  [.saveCloseFriends s.newSelectedContactIds, .onClose]

/-- `setSearchQuery` (the `useState` setter wired to the picker's
`onFilterChange`): replaces the current search text. -/
def setFilterText (_old : String) (text : String) : String := text

/-! ## Claims about the close-friends controller -/

/-- Concrete user table: `me` and `b` are both flagged as close friends;
`b` is named `Bob`. -/
def usersByIdEx : String → Option ApiUser := fun id =>
  if id = "me" then some ⟨"Me", true⟩
  else if id = "b" then some ⟨"Bob", true⟩
  else none

/-- C4 counterexample: the claim fails on two concrete inputs. With the
acting user `me` in the contact list and flagged as a close friend,
`displayedIds` contains `me` (the self-exclusion applies only to the
contact portion, not to `closeFriendIds`). With close friend `b` (named
`Bob`) and filter text `x`, `b` is in the baseline but not displayed
(baseline IDs also go through the name filter). -/
theorem displayedIds_invariant_counterexample :
    "me" ∈ displayedIds usersByIdEx (some ["me"]) "me" "" ∧
    "b" ∈ closeFriendIds usersByIdEx (some ["b"]) ∧
    "b" ∉ displayedIds usersByIdEx (some ["b"]) "me" "x" := by
  refine ⟨(mem_displayedIds _ _ _ _ _).mpr (by decide), by decide, fun h => ?_⟩
  exact absurd ((mem_displayedIds _ _ _ _ _).mp h) (by decide)

/-- C4 amended: `displayedIds` contains every baseline (close-friend) ID
that passes the name filter (all of them when the filter text is empty)
and every filter-matching non-self contact ID, is free of duplicates, and
cannot contain the acting user's own ID unless that ID is itself in the
baseline. -/
theorem displayedIds_invariant (u : String → Option ApiUser)
    (c : Option (List String)) (self q : String) :
    (∀ id ∈ closeFriendIds u c, matchesQuery u q id = true →
      id ∈ displayedIds u c self q) ∧
    (∀ id ∈ c.getD [], id ≠ self → matchesQuery u q id = true →
      id ∈ displayedIds u c self q) ∧
    (displayedIds u c self q).Nodup ∧
    (self ∉ closeFriendIds u c → self ∉ displayedIds u c self q) := by
  refine ⟨?_, ?_, ?_, ?_⟩
  · intro id hmem hq
    exact (mem_displayedIds u c self q id).mpr ⟨Or.inl hmem, hq⟩
  · intro id hmem hself hq
    exact (mem_displayedIds u c self q id).mpr ⟨Or.inr ⟨hmem, hself⟩, hq⟩
  · simp only [displayedIds]
    exact unique_nodup _
  · intro hbase hmem
    rcases (mem_displayedIds u c self q self).mp hmem with ⟨h1 | h2, _⟩
    · exact hbase h1
    · exact h2.2 rfl

/-- Witness for C4 amended: close friend `b` with an empty filter is
displayed; contact `b` is likewise displayed; and for a user table where
nobody is a close friend, the acting user is never displayed. -/
theorem displayedIds_invariant_witness :
    "b" ∈ displayedIds usersByIdEx (some ["b"]) "me" "" ∧
    (displayedIds usersByIdEx (some ["b"]) "me" "").Nodup ∧
    "me" ∉ displayedIds (fun _ => none) (some ["me"]) "me" "" :=
  ⟨(displayedIds_invariant usersByIdEx (some ["b"]) "me" "").1 "b" (by decide) (by decide),
   (displayedIds_invariant usersByIdEx (some ["b"]) "me" "").2.2.1,
   (displayedIds_invariant (fun _ => none) (some ["me"]) "me" "").2.2.2 (by decide)⟩

/-- C5: the working selection is reset (and the submit flag cleared)
exactly on the rising edge of `isActive`; re-rendering while already
active — including with a changed baseline — never resets, and a second
consecutive activation does not reset again. -/
theorem working_resets_only_on_rising_edge (s : ControllerState)
    (isActive : Bool) (closeFriends : List String) :
    ((renderStep s isActive closeFriends).newSelectedContactIds =
      if !s.prevIsActive && isActive then closeFriends
      else s.newSelectedContactIds) ∧
    ((renderStep s isActive closeFriends).isSubmitShown =
      if !s.prevIsActive && isActive then false else s.isSubmitShown) ∧
    (∀ closeFriends' : List String,
      (renderStep (renderStep s true closeFriends) true
          closeFriends').newSelectedContactIds =
        (renderStep s true closeFriends).newSelectedContactIds) := by
  refine ⟨?_, ?_, ?_⟩
  · by_cases h : (!s.prevIsActive && isActive) = true <;> simp [renderStep, h]
  · by_cases h : (!s.prevIsActive && isActive) = true <;> simp [renderStep, h]
  · intro closeFriends'
    cases hs : s.prevIsActive <;> simp [renderStep, hs]

/-- Concrete user table for the ordering example: `A` and `B` are close
friends, `C` and `D` are plain contacts. -/
def usersC6 : String → Option ApiUser := fun id =>
  if id = "A" then some ⟨"Alice", true⟩
  else if id = "B" then some ⟨"Bea", true⟩
  else if id = "C" then some ⟨"Cara", false⟩
  else if id = "D" then some ⟨"Dan", false⟩
  else none

/-- C6: ordering of `displayedIds`. Concretely, with baseline `{A, B}`,
contact list `[C, A, D, B]`, self excluded and an empty filter,
`displayedIds = [A, B, C, D]`; in general, `displayedIds` is the
de-duplicated filter-matched baseline IDs (in baseline order) followed by
the filter-matched non-self contact IDs not already displayed (in
contact-list order), de-duplicated preserving first occurrence. -/
theorem displayedIds_ordering :
    displayedIds usersC6 (some ["C", "A", "D", "B"]) "me" "" = ["A", "B", "C", "D"] ∧
    (∀ (u : String → Option ApiUser) (c : Option (List String)) (self q : String),
      displayedIds u c self q =
        unique (filterUsersByName (closeFriendIds u c) u q) ++
          unique ((filterUsersByName ((c.getD []).filter (fun id => id ≠ self)) u
              q).filter
            (fun y => !(filterUsersByName (closeFriendIds u c) u q).contains y))) := by
  constructor
  · simp [displayedIds, closeFriendIds, filterUsersByName, usersC6, unique]
  · intro u c self q
    simp only [displayedIds, filterUsersByName_eq_filter, List.filter_append]
    rw [unique_append]

/-- C8: `changeSelection` followed by `commit` saves exactly the new
working set and then closes, regardless of the prior state (baseline
included): the external calls are `saveCloseFriends(value)` then
`onClose`, in that order, with exactly one save. -/
theorem commit_saves_working_then_closes (s : ControllerState)
    (value : List String) :
    handleSubmit (handleSelectedContactIdsChange s value) =
      [.saveCloseFriends value, .onClose] := rfl

/-- C9: `displayedIds` is a pure function of the baseline, the contact
set and the filter text: setting the same filter text twice yields the
same `displayedIds` as setting it once, and equal inputs always yield
equal `displayedIds`. -/
theorem displayedIds_pure (u : String → Option ApiUser)
    (c : Option (List String)) (self q0 t : String) :
    displayedIds u c self (setFilterText (setFilterText q0 t) t) =
      displayedIds u c self (setFilterText q0 t) ∧
    (∀ q1 q2 : String, q1 = q2 →
      displayedIds u c self q1 = displayedIds u c self q2) := by
  exact ⟨rfl, fun q1 q2 h => by rw [h]⟩

/-- Witness for C9: evaluating the idempotence and congruence statements
at a concrete user table, contact list and filter text. -/
theorem displayedIds_pure_witness :
    displayedIds usersByIdEx (some ["b"]) "me"
        (setFilterText (setFilterText "" "Bo") "Bo") =
      displayedIds usersByIdEx (some ["b"]) "me" (setFilterText "" "Bo") ∧
    displayedIds usersByIdEx (some ["b"]) "me" "Bo" =
      displayedIds usersByIdEx (some ["b"]) "me" "Bo" :=
  ⟨(displayedIds_pure usersByIdEx (some ["b"]) "me" "" "Bo").1,
   (displayedIds_pure usersByIdEx (some ["b"]) "me" "" "Bo").2 "Bo" "Bo" rfl⟩
